import Mathlib

/-!
Verification development for the Smart Waste Mataram dashboard
(src/BigData/app.py and src/BigData/app2.py).

The two Python files are shallowly embedded below.  Machine reals are
modelled by exact rationals; the ambient pseudo-random generators
(numpy's global RNG in app.py, the random module in app2.py) are
modelled by an explicit random tape: every textual draw site of a
given (hour-slot, station) pair reads a dedicated index of a stream
of rationals, and each primitive (randint, uniform, choice) maps a
stream value u to its result through the fractional part of u, so a
primitive with support S always returns a value in S.  The mapping
from the global sequential stream of the source to the per-site tape
is injective (each draw of an execution belongs to exactly one site),
so properties quantified over all tapes cover all executions.
Timestamps are hours-since-epoch naturals (the generators step the
clock by exactly one hour, so minute offsets never influence any
computed quantity); the weekday of hour t is (t / 24) % 7, fixing the
epoch on a Monday.
-/

namespace SmartWaste

/-- Fractional part based model of a uniform draw on the half-open
interval from lo to hi, as produced by numpy's uniform and the random
module's uniform. -/
def uniformDraw (lo hi u : ℚ) : ℚ := lo + (hi - lo) * Int.fract u

/-- Model of numpy's randint(lo, hi): an integer uniform on lo..hi-1
(high end exclusive). -/
def npRandint (lo hi : ℤ) (u : ℚ) : ℤ := lo + ⌊((hi - lo : ℤ) : ℚ) * Int.fract u⌋

/-- Model of the random module's randint(lo, hi): an integer uniform on
lo..hi (high end inclusive). -/
def pyRandint (lo hi : ℤ) (u : ℚ) : ℤ := lo + ⌊((hi - lo + 1 : ℤ) : ℚ) * Int.fract u⌋

/-- Python's int() conversion truncates toward zero. -/
def pyTrunc (q : ℚ) : ℤ := if 0 ≤ q then ⌊q⌋ else ⌈q⌉

/-- Python's round(x, 2); ties are rounded half-up here where Python
rounds half-to-even, a difference only at exact multiples of 1/200
which no verified property depends on. -/
def pyRound2 (q : ℚ) : ℚ := ((round (q * 100) : ℤ) : ℚ) / 100

/-- One station of the app.py registry LOCATIONS: coordinates and the
fill-rate multiplier.  The id is the position in the list; the name
and category strings only feed the UI. -/
structure Station1 where
  lat : ℚ
  lon : ℚ
  mult : ℚ
deriving DecidableEq, Repr, Inhabited

/-- The LOCATIONS registry of app.py (15 stations). -/
def LOCATIONS : List Station1 :=
  [ ⟨-85724/10000, 1160710/10000, 8/10⟩
  , ⟨-85680/10000, 1160850/10000, 9/10⟩
  , ⟨-85750/10000, 1160800/10000, 1⟩
  , ⟨-85800/10000, 1160880/10000, 12/10⟩
  , ⟨-86000/10000, 1161050/10000, 11/10⟩
  , ⟨-86100/10000, 1161100/10000, 13/10⟩
  , ⟨-85830/10000, 1161200/10000, 1⟩
  , ⟨-85750/10000, 1161400/10000, 9/10⟩
  , ⟨-85900/10000, 1161300/10000, 18/10⟩
  , ⟨-85950/10000, 1161500/10000, 19/10⟩
  , ⟨-85600/10000, 1161300/10000, 8/10⟩
  , ⟨-85550/10000, 1161100/10000, 9/10⟩
  , ⟨-85850/10000, 1161000/10000, 14/10⟩
  , ⟨-85900/10000, 1160950/10000, 12/10⟩
  , ⟨-85980/10000, 1160900/10000, 13/10⟩ ]

/-- Disposal site of app.py, TPA Kebon Kongok, as a (lon, lat) pair in
the order route_coords stores coordinates. -/
def tpaCoord1 : ℚ × ℚ := (1161300/10000, -86400/10000)

/-- One station of the app2.py registry tps_locations: coordinates and
the base load. -/
structure Station2 where
  lat : ℚ
  lon : ℚ
  baseLoad : ℚ
deriving DecidableEq, Repr, Inhabited

/-- The tps_locations registry of app2.py (20 stations). -/
def tpsLocations : List Station2 :=
  [ ⟨-8575/1000, 116080/1000, 80⟩
  , ⟨-8578/1000, 116085/1000, 40⟩
  , ⟨-8595/1000, 116082/1000, 50⟩
  , ⟨-8592/1000, 116090/1000, 60⟩
  , ⟨-8583/1000, 116102/1000, 45⟩
  , ⟨-8585/1000, 116105/1000, 55⟩
  , ⟨-8570/1000, 116100/1000, 70⟩
  , ⟨-8565/1000, 116110/1000, 50⟩
  , ⟨-8562/1000, 116105/1000, 30⟩
  , ⟨-8590/1000, 116120/1000, 85⟩
  , ⟨-8592/1000, 116125/1000, 90⟩
  , ⟨-8588/1000, 116130/1000, 95⟩
  , ⟨-8595/1000, 116122/1000, 65⟩
  , ⟨-8600/1000, 116135/1000, 75⟩
  , ⟨-8598/1000, 116140/1000, 80⟩
  , ⟨-8605/1000, 116100/1000, 55⟩
  , ⟨-8608/1000, 116102/1000, 70⟩
  , ⟨-8580/1000, 116110/1000, 85⟩
  , ⟨-8582/1000, 116095/1000, 60⟩
  , ⟨-8560/1000, 116120/1000, 75⟩ ]

/-- Disposal site coordinates appended by render_routing_page of
app2.py, in (lon, lat) order. -/
def tpaCoord2 : ℚ × ℚ := (11615/100, -865/100)

/-- One generated sensor reading.  The station field is the index into
the registry; name, latitude and longitude columns of the source rows
are copies of the registry entry at that index. -/
structure Reading where
  timestamp : ℕ
  station : ℕ
  fill : ℤ
  weight : ℚ
  lidOpen : Bool
  odorStrong : Bool
deriving DecidableEq, Repr, Inhabited

/-- A random tape: slot index, station index and draw-site index to a
rational feeding the draw primitives. -/
abbrev Tape := ℕ → ℕ → ℕ → ℚ

/-- The loop body of generate_data in app.py for hour slot k (of 169)
and station i, reading its draws from the site stream d.  Draw sites:
0 noise, 1 morning reset, 2 final-snapshot band, 3 weight jitter,
4 lid choice. -/
def mkReading1 (now k i : ℕ) (d : ℕ → ℚ) : Reading :=
  let st := LOCATIONS.getD i default
  let ts := now - 168 + k
  let hour := ts % 24
  let isWeekend : Bool := decide (5 ≤ ts / 24 % 7)
  let timeFactor : ℚ :=
    if 6 ≤ hour ∧ hour < 12 then 5
    else if 12 ≤ hour ∧ hour < 17 then 10
    else if 17 ≤ hour ∧ hour ≤ 21 then 25
    else 0
  let weekendFactor : ℚ := if isWeekend then 12/10 else 1
  let noise : ℤ := npRandint (-5) 10 (d 0)
  let base : ℚ :=
    if hour = 5 then ((npRandint 0 10 (d 1) : ℤ) : ℚ)
    else ((hour : ℚ) * 2) * st.mult * weekendFactor + timeFactor + (noise : ℚ)
  let base : ℚ :=
    if ts = now then
      if 3/2 < st.mult then ((npRandint 80 100 (d 2) : ℤ) : ℚ)
      else if 11/10 < st.mult then ((npRandint 50 79 (d 2) : ℤ) : ℚ)
      else ((npRandint 10 49 (d 2) : ℤ) : ℚ)
    else base
  let level : ℤ := max 0 (min (pyTrunc base) 100)
  let weight : ℚ := pyRound2 (((level : ℚ) * (5/2)) * uniformDraw (9/10) (12/10) (d 3))
  let lidOpen : Bool := if 85 < level then true else decide (9/10 ≤ Int.fract (d 4))
  let odorStrong : Bool := lidOpen && decide (70 < level)
  ⟨ts, i, level, weight, lidOpen, odorStrong⟩

/-- The loop body of WasteDataGenerator.generate_data in app2.py for
hour slot k (of 24·days+1) and station i.  Draw sites: 0 noise,
1 morning reset, 3 weight jitter, 4 lid choice. -/
def mkReading2 (days now k i : ℕ) (d : ℕ → ℚ) : Reading :=
  let tps := tpsLocations.getD i default
  let ts := now - 24 * days + k
  let hour := ts % 24
  let timeFactor : ℚ :=
    if hour < 6 then 3/10
    else if 17 ≤ hour ∧ hour ≤ 20 then 3/2
    else 8/10
  let noise : ℚ := uniformDraw (-10) 20 (d 0)
  let level0 : ℤ := pyTrunc (tps.baseLoad * timeFactor + noise)
  let level1 : ℤ := if hour = 5 then pyRandint 0 10 (d 1) else level0
  let level : ℤ := max 0 (min 100 level1)
  let weight : ℚ := max 0 (pyRound2 ((level : ℚ) * 5 + uniformDraw (-5) 5 (d 3)))
  let lidOpen : Bool := if 85 < level then true else decide (⌊4 * Int.fract (d 4)⌋ = 3)
  let odorStrong : Bool := lidOpen && decide (70 < level)
  ⟨ts, i, level, weight, lidOpen, odorStrong⟩

/-- Shared shape of both generator loops: for each hour slot, one
reading per station, in timestamp-then-station order. -/
def genLoop (slots nst : ℕ) (mk : ℕ → ℕ → Reading) : List Reading :=
  (List.range slots).flatMap fun k => (List.range nst).map (mk k)

/-- History produced by generate_data of app.py: a 7-day trailing
window of hourly slots (169 including both endpoints) over the 15
LOCATIONS, now being the hour of the datetime.now() call. -/
def generateData1 (now : ℕ) (tape : Tape) : List Reading :=
  genLoop 169 LOCATIONS.length fun k i => mkReading1 now k i (tape k i)

/-- History produced by WasteDataGenerator.generate_data of app2.py
with its days argument: 24·days+1 hourly slots over the 20
tps_locations. -/
def generateData2 (days now : ℕ) (tape : Tape) : List Reading :=
  genLoop (24 * days + 1) tpsLocations.length fun k i => mkReading2 days now k i (tape k i)

/-- Maximum timestamp of a history, df_raw timestamp max in both apps. -/
def maxTimestamp (h : List Reading) : ℕ := h.foldr (fun r m => max r.timestamp m) 0

/-- Snapshot extraction used by both apps: the rows whose timestamp
equals the maximum timestamp of the history. -/
def latestSnapshot (h : List Reading) : List Reading :=
  h.filter fun r => decide (r.timestamp = maxTimestamp h)

/-- Comparator of the app.py pickup sort: sort_values on the single
key level_kepenuhan.  The boolean is the ascending comparison; pandas
realizes descending order by reversing the stable ascending argsort
(nargsort reverses the indexer when ascending is false, and numpy's
introsort is a stable insertion sort below 16 elements, the sizes
arising here). -/
def fillLe (a b : Reading) : Bool := decide (a.fill ≤ b.fill)

/-- Pickup list of the app.py routing page: stations of the snapshot
above 75 percent, ordered by descending fill level. -/
def pickupList1 (snap : List Reading) : List Reading :=
  ((snap.filter fun r => decide (75 < r.fill)).mergeSort fillLe).reverse

/-- Coordinate pair of a station row as route_coords stores it in
app.py: longitude first, latitude second. -/
def coord1 (r : Reading) : ℚ × ℚ :=
  ((LOCATIONS.getD r.station default).lon, (LOCATIONS.getD r.station default).lat)

/-- Route coordinates built by the app.py routing page: nothing when
the pickup list is empty, otherwise the pickup coordinates followed by
the disposal site. -/
def routeCoords1 (snap : List Reading) : List (ℚ × ℚ) :=
  let p := pickupList1 snap
  if p.isEmpty then [] else p.map coord1 ++ [tpaCoord1]

/-- Comparator of SmartAnalytics.optimize_route in app2.py:
sort_values on the keys level_kepenuhan then berat_kg, both
descending.  The multi-key pandas path is a stable lexicographic sort
where descending keys are realized by inverting key codes, so the
comparator itself is descending and ties beyond both keys keep input
order. -/
def lexDescLe (a b : Reading) : Bool :=
  decide (b.fill < a.fill ∨ (a.fill = b.fill ∧ b.weight ≤ a.weight))

/-- Route plan of SmartAnalytics.optimize_route in app2.py: stations
above 75 percent sorted descending by (fill, weight). -/
def routePlan2 (snap : List Reading) : List Reading :=
  (snap.filter fun r => decide (75 < r.fill)).mergeSort lexDescLe

/-- Coordinate pair of a station row in the app2.py path data:
longitude first, latitude second. -/
def coord2 (r : Reading) : ℚ × ℚ :=
  ((tpsLocations.getD r.station default).lon, (tpsLocations.getD r.station default).lat)

/-- Coordinates built by render_routing_page in app2.py: nothing when
the route plan is empty, otherwise the plan coordinates followed by
the disposal site. -/
def routeCoords2 (snap : List Reading) : List (ℚ × ℚ) :=
  let rp := routePlan2 snap
  if rp.isEmpty then [] else rp.map coord2 ++ [tpaCoord2]

/-- Priority labels carried by snapshot rows after classification. -/
inductive Label where
  | high
  | medium
  | low
  | unknown
deriving DecidableEq, Repr

/-- Mean fill level of cluster c under assignment a, the groupby
cluster mean of level_kepenuhan computed by both apps.  The assignment
maps row positions of the snapshot to the K-Means cluster id of that
row; K-Means itself (a fixed-seed iterative optimization over floats)
is taken as an opaque input assignment. -/
def clusterMean (snap : List Reading) (a : ℕ → Fin 3) (c : Fin 3) : ℚ :=
  let idx := (List.range snap.length).filter fun i => decide (a i = c)
  (idx.map fun i => ((snap.getD i default).fill : ℚ)).sum / idx.length

/-- Position of cluster c in the series of cluster means sorted
descending, as app.py computes it: pandas reverses the stable
ascending order, so ties by mean fall back to descending cluster id. -/
def rankDesc (mu : Fin 3 → ℚ) (c : Fin 3) : ℕ :=
  (Finset.univ.filter fun d => mu c < mu d ∨ (mu d = mu c ∧ c < d)).card

/-- Mapping of descending rank to priority label used by priority_map
in app.py: first High, then Medium, then Low. -/
def labelOfRankDesc : ℕ → Label
  | 0 => Label.high
  | 1 => Label.medium
  | _ => Label.low

/-- Position of cluster c in the series of cluster means sorted
ascending, as SmartAnalytics.perform_clustering computes it in
app2.py: sort_values ascending is stable, ties by mean fall back to
ascending cluster id. -/
def rankAsc (mu : Fin 3 → ℚ) (c : Fin 3) : ℕ :=
  (Finset.univ.filter fun d => mu d < mu c ∨ (mu d = mu c ∧ d < c)).card

/-- Mapping of ascending rank to priority label used by the mapping
loop of app2.py: first Low, then Medium, then High. -/
def labelOfRankAsc : ℕ → Label
  | 0 => Label.low
  | 1 => Label.medium
  | _ => Label.high

/-- Priority labels attached by the clustering section of app.py:
rank-by-mean labels when the snapshot has more than 3 rows, the
Unknown fallback on every row otherwise. -/
def classify1 (snap : List Reading) (a : ℕ → Fin 3) : List Label :=
  if 3 < snap.length then
    (List.range snap.length).map fun i => labelOfRankDesc (rankDesc (clusterMean snap a) (a i))
  else snap.map fun _ => Label.unknown

/-- Labels attached by SmartAnalytics.perform_clustering in app2.py:
none when fewer than 3 rows (the frame is returned without any label
column), otherwise rank-by-mean labels on every row. -/
def classify2 (snap : List Reading) (a : ℕ → Fin 3) : Option (List Label) :=
  if snap.length < 3 then none
  else some ((List.range snap.length).map fun i =>
    labelOfRankAsc (rankAsc (clusterMean snap a) (a i)))

/-- Daily forecast output: fitted slope and intercept, predicted
next-day total and the displayed delta against the last actual day. -/
structure DailyForecast where
  slope : ℚ
  intercept : ℚ
  nextTotal : ℚ
  delta : ℚ
deriving DecidableEq, Repr

/-- Ordinary least squares of degree one over day indices 0..n-1,
exactly the normal equations solved by np.polyfit in app.py and by
LinearRegression in app2.py, applied to the per-day aggregated weight
totals; the prediction is taken at index n and the delta compares it
with the last actual total. -/
def forecastDaily (totals : List ℚ) : DailyForecast :=
  let n : ℚ := totals.length
  let xs : List ℚ := (List.range totals.length).map fun i => (i : ℚ)
  let sx : ℚ := xs.sum
  let sy : ℚ := totals.sum
  let sxy : ℚ := (xs.zip totals).foldr (fun p acc => p.1 * p.2 + acc) 0
  let sxx : ℚ := (xs.map fun x => x * x).sum
  let slope := (n * sxy - sx * sy) / (n * sxx - sx * sx)
  let intercept := (sy - slope * sx) / n
  let nextTotal := slope * n + intercept
  ⟨slope, intercept, nextTotal, nextTotal - (totals.getLast?.getD 0)⟩

/-! Helper lemmas shared by the claim theorems. -/

/-- Membership in a generator loop decomposes into a slot index and a
station index. -/
lemma mem_genLoop {slots nst : ℕ} {mk : ℕ → ℕ → Reading} {r : Reading} :
    r ∈ genLoop slots nst mk ↔ ∃ k i, k < slots ∧ i < nst ∧ r = mk k i := by
  simp only [genLoop, List.mem_flatMap, List.mem_map, List.mem_range]
  constructor
  · rintro ⟨k, hk, i, hi, rfl⟩
    exact ⟨k, i, hk, hi, rfl⟩
  · rintro ⟨k, i, hk, hi, rfl⟩
    exact ⟨k, hk, i, hi, rfl⟩

lemma le_maxTimestamp {h : List Reading} {r : Reading} (hr : r ∈ h) :
    r.timestamp ≤ maxTimestamp h := by
  induction h with
  | nil => cases hr
  | cons x l ih =>
    rcases List.mem_cons.mp hr with rfl | hmem
    · exact le_max_left _ _
    · exact le_trans (ih hmem) (le_max_right _ _)

lemma maxTimestamp_le {h : List Reading} {b : ℕ} (hb : ∀ r ∈ h, r.timestamp ≤ b) :
    maxTimestamp h ≤ b := by
  induction h with
  | nil => exact Nat.zero_le b
  | cons x l ih =>
    exact max_le (hb x (List.mem_cons_self x l)) (ih fun r hr => hb r (List.mem_cons_of_mem x hr))

/-- Timestamp of an app.py reading. -/
lemma mkReading1_timestamp (now k i : ℕ) (d : ℕ → ℚ) :
    (mkReading1 now k i d).timestamp = now - 168 + k := rfl

/-- Timestamp of an app2.py reading. -/
lemma mkReading2_timestamp (days now k i : ℕ) (d : ℕ → ℚ) :
    (mkReading2 days now k i d).timestamp = now - 24 * days + k := rfl

/-- Station index of an app.py reading. -/
lemma mkReading1_station (now k i : ℕ) (d : ℕ → ℚ) :
    (mkReading1 now k i d).station = i := rfl

/-- Station index of an app2.py reading. -/
lemma mkReading2_station (days now k i : ℕ) (d : ℕ → ℚ) :
    (mkReading2 days now k i d).station = i := rfl

/-- With a trailing window of H hours ending at now and one reading
per station per slot, the snapshot is exactly the final slot. -/
lemma latestSnapshot_genLoop {nst H now : ℕ} {mk : ℕ → ℕ → Reading}
    (hts : ∀ k i, (mk k i).timestamp = now - H + k) (hH : H ≤ now) (h0 : 0 < nst) :
    latestSnapshot (genLoop (H + 1) nst mk) = (List.range nst).map (mk H) := by
  have hmax : maxTimestamp (genLoop (H + 1) nst mk) = now := by
    apply le_antisymm
    · apply maxTimestamp_le
      intro r hr
      obtain ⟨k, i, hk, hi, rfl⟩ := mem_genLoop.mp hr
      rw [hts]
      omega
    · have hmem : mk H 0 ∈ genLoop (H + 1) nst mk :=
        mem_genLoop.mpr ⟨H, 0, Nat.lt_succ_self H, h0, rfl⟩
      have := le_maxTimestamp hmem
      rw [hts] at this
      omega
  unfold latestSnapshot
  rw [hmax, genLoop, List.filter_flatMap]
  rw [List.range_succ, List.flatMap_append]
  have h1 : (List.range H).flatMap
      (fun k => ((List.range nst).map (mk k)).filter fun r => decide (r.timestamp = now)) = [] := by
    apply List.flatMap_eq_nil_iff.mpr
    intro k hk
    apply List.filter_eq_nil_iff.mpr
    intro r hr
    obtain ⟨i, hi, rfl⟩ := List.mem_map.mp hr
    rw [List.mem_range] at hk
    simp only [decide_eq_true_eq, hts]
    omega
  have h2 : ((List.range nst).map (mk H)).filter (fun r => decide (r.timestamp = now)) =
      (List.range nst).map (mk H) := by
    apply List.filter_eq_self.mpr
    intro r hr
    obtain ⟨i, hi, rfl⟩ := List.mem_map.mp hr
    simp only [decide_eq_true_eq, hts]
    omega
  simp [h1, h2]

/-- An npRandint draw lies in the half-open support. -/
lemma npRandint_mem (lo hi : ℤ) (u : ℚ) (h : lo < hi) :
    lo ≤ npRandint lo hi u ∧ npRandint lo hi u < hi := by
  unfold npRandint
  have h0 : (0 : ℚ) ≤ Int.fract u := Int.fract_nonneg u
  have h1 : Int.fract u < 1 := Int.fract_lt_one u
  have hd : (0 : ℚ) < ((hi - lo : ℤ) : ℚ) := by
    push_cast
    push_cast at *
    linarith [show (lo : ℚ) < (hi : ℚ) from by exact_mod_cast h]
  constructor
  · have : (0 : ℚ) ≤ ((hi - lo : ℤ) : ℚ) * Int.fract u := mul_nonneg (le_of_lt hd) h0
    have hfl : (0 : ℤ) ≤ ⌊((hi - lo : ℤ) : ℚ) * Int.fract u⌋ := Int.floor_nonneg.mpr this
    omega
  · have hlt : ((hi - lo : ℤ) : ℚ) * Int.fract u < ((hi - lo : ℤ) : ℚ) := by
      nth_rewrite 2 [show ((hi - lo : ℤ) : ℚ) = ((hi - lo : ℤ) : ℚ) * 1 from (mul_one _).symm]
      exact mul_lt_mul_of_pos_left h1 hd
    have hfl : ⌊((hi - lo : ℤ) : ℚ) * Int.fract u⌋ < (hi - lo : ℤ) := by
      rw [Int.floor_lt]
      exact_mod_cast hlt
    omega

/-- A pyRandint draw lies in the closed support. -/
lemma pyRandint_mem (lo hi : ℤ) (u : ℚ) (h : lo ≤ hi) :
    lo ≤ pyRandint lo hi u ∧ pyRandint lo hi u ≤ hi := by
  have := npRandint_mem lo (hi + 1) u (by omega)
  unfold npRandint at this
  unfold pyRandint
  have harg : ((hi + 1 - lo : ℤ) : ℚ) = ((hi - lo + 1 : ℤ) : ℚ) := by norm_cast; omega
  rw [harg] at this
  omega

/-- A uniform draw is at least the lower endpoint when the endpoints
are ordered. -/
lemma uniformDraw_le_left {lo hi : ℚ} (u : ℚ) (h : lo ≤ hi) : lo ≤ uniformDraw lo hi u := by
  unfold uniformDraw
  have h0 : (0 : ℚ) ≤ Int.fract u := Int.fract_nonneg u
  nlinarith

/-- Truncation of an integer cast is the integer itself. -/
lemma pyTrunc_intCast (z : ℤ) : pyTrunc ((z : ℚ)) = z := by
  unfold pyTrunc
  split <;> simp

/-- Rounding to two decimals preserves nonnegativity. -/
lemma pyRound2_nonneg {q : ℚ} (h : 0 ≤ q) : 0 ≤ pyRound2 q := by
  unfold pyRound2
  have : (0 : ℤ) ≤ round (q * 100) := by
    rw [round_eq]
    apply Int.floor_nonneg.mpr
    nlinarith
  positivity

/-! Claim C5: trend forecaster on daily totals 1000, 1100, 1200. -/

/-- C5 counterexample: on per-day totals 1000, 1100, 1200 the
least-squares intercept computed by the code is not 900; day indices
start at 0, so the fitted line is 100·x + 1000. -/
theorem c5_forecast_intercept_counterexample :
    (forecastDaily [1000, 1100, 1200]).intercept ≠ 900 := by
  norm_num [forecastDaily, List.range_succ]

/-- C5 amended: for a history whose per-day aggregated totals over 3
days are 1000, 1100, 1200, the ordinary-least-squares fit computed
over day indices 0, 1, 2 yields slope 100 and intercept 1000, the
predicted day-4 total is 1300, and the reported delta versus the last
actual day is +100. -/
theorem c5_forecast_sample :
    (forecastDaily [1000, 1100, 1200]).slope = 100 ∧
    (forecastDaily [1000, 1100, 1200]).intercept = 1000 ∧
    (forecastDaily [1000, 1100, 1200]).nextTotal = 1300 ∧
    (forecastDaily [1000, 1100, 1200]).delta = 100 := by
  norm_num [forecastDaily, List.range_succ]

/-! Claim C1: determinism of the telemetry generators. -/

/-- C1 counterexample: the generators take no seed argument; with all
actual arguments identical (window of 0 extra days, the same now),
two states of the ambient random stream produce different histories,
so the output is not a function of the claimed argument list. -/
theorem c1_determinism_counterexample :
    generateData2 0 24 (fun _ _ _ => 0) ≠ generateData2 0 24 (fun _ _ _ => 1/2) := by
  have hfr : Int.fract ((1 : ℚ)/2) = 1/2 := by
    rw [Int.fract]
    norm_num [Int.floor_eq_zero_iff, Set.mem_Ico]
  have hexp : ∀ t : Tape, generateData2 0 24 t =
      (List.range tpsLocations.length).map fun i => mkReading2 0 24 0 i (t 0 i) := by
    intro t
    simp [generateData2, genLoop, List.range_succ]
  have hhd : ∀ t : Tape,
      ((generateData2 0 24 t).headD default) = mkReading2 0 24 0 0 (t 0 0) := by
    intro t
    rw [hexp t, show List.range tpsLocations.length = 0 :: (List.range 19).map Nat.succ from
      List.range_succ_eq_map 19]
    simp
  intro h
  have hfill := congrArg (fun l => (l.headD default).fill) h
  simp only [hhd] at hfill
  have e0 : (mkReading2 0 24 0 0 (fun _ => (0 : ℚ))).fill = 14 := by
    simp only [mkReading2, tpsLocations, uniformDraw, pyTrunc, pyRandint]
    norm_num
  have e1 : (mkReading2 0 24 0 0 (fun _ => (1 : ℚ)/2)).fill = 29 := by
    simp only [mkReading2, tpsLocations, uniformDraw, pyTrunc, pyRandint]
    rw [hfr]
    norm_num
  rw [e0, e1] at hfill
  exact absurd hfill (by decide)

/-- C1 amended: each generator is a deterministic function of its
arguments together with the observed current time and the ambient
random stream: two calls with the same window, the same now and the
same random tape produce bit-identical histories. -/
theorem c1_generator_deterministic :
    (∀ now now' t t', now = now' → t = t' →
      generateData1 now t = generateData1 now' t') ∧
    (∀ days days' now now' t t', days = days' → now = now' → t = t' →
      generateData2 days now t = generateData2 days' now' t') := by
  constructor
  · rintro now _ t _ rfl rfl; rfl
  · rintro days _ now _ t _ rfl rfl rfl; rfl

/-- C1 witness: the determinism theorem applied at a concrete window,
time and tape. -/
theorem c1_generator_deterministic_witness :
    generateData1 173 (fun _ _ _ => 0) = generateData1 173 (fun _ _ _ => 0) ∧
    generateData2 0 24 (fun _ _ _ => 0) = generateData2 0 24 (fun _ _ _ => 0) :=
  ⟨c1_generator_deterministic.1 173 173 _ _ rfl rfl,
   c1_generator_deterministic.2 0 0 24 24 _ _ rfl rfl rfl⟩

/-! Claim C9: empty route when no station is above the threshold. -/

/-- C9 confirmed: when no station of the snapshot exceeds the 75
percent urgency threshold, both planners return an empty pickup list
and an empty coordinate list with no disposal stop appended; the
result is an ordinary value, not an error. -/
theorem c9_route_empty_when_no_urgent (snap : List Reading)
    (h : ∀ r ∈ snap, r.fill ≤ 75) :
    pickupList1 snap = [] ∧ routeCoords1 snap = [] ∧
    routePlan2 snap = [] ∧ routeCoords2 snap = [] := by
  have hf : (snap.filter fun r => decide (75 < r.fill)) = [] := by
    apply List.filter_eq_nil_iff.mpr
    intro r hr
    simpa using not_lt.mpr (h r hr)
  have hp : pickupList1 snap = [] := by
    simp [pickupList1, hf]
  have hrp : routePlan2 snap = [] := by
    simp [routePlan2, hf]
  refine ⟨hp, ?_, hrp, ?_⟩
  · simp [routeCoords1, hp]
  · simp [routeCoords2, hrp]

/-- C9 witness: the empty-route theorem applied to a one-station
snapshot at 40 percent. -/
theorem c9_route_empty_when_no_urgent_witness :
    pickupList1 [⟨0, 0, 40, 0, false, false⟩] = [] ∧
    routeCoords1 [⟨0, 0, 40, 0, false, false⟩] = [] ∧
    routePlan2 [⟨0, 0, 40, 0, false, false⟩] = [] ∧
    routeCoords2 [⟨0, 0, 40, 0, false, false⟩] = [] :=
  c9_route_empty_when_no_urgent _ (by decide)

/-! Shape lemmas exposing the clamp and branch structure of the
generated fields without evaluating the rational arithmetic. -/

lemma mkReading1_fill_clamped (now k i : ℕ) (d : ℕ → ℚ) :
    ∃ t : ℤ, (mkReading1 now k i d).fill = max 0 (min t 100) :=
  ⟨_, rfl⟩

lemma mkReading1_fill_branches (now k i : ℕ) (d : ℕ → ℚ) :
    ∃ F : ℚ, (mkReading1 now k i d).fill =
      max 0 (min (pyTrunc (
        if now - 168 + k = now then
          if 3/2 < (LOCATIONS.getD i default).mult then ((npRandint 80 100 (d 2) : ℤ) : ℚ)
          else if 11/10 < (LOCATIONS.getD i default).mult then ((npRandint 50 79 (d 2) : ℤ) : ℚ)
          else ((npRandint 10 49 (d 2) : ℤ) : ℚ)
        else if (now - 168 + k) % 24 = 5 then ((npRandint 0 10 (d 1) : ℤ) : ℚ)
        else F)) 100) :=
  ⟨_, rfl⟩

lemma mkReading1_weight_eq (now k i : ℕ) (d : ℕ → ℚ) :
    (mkReading1 now k i d).weight =
      pyRound2 (((mkReading1 now k i d).fill : ℚ) * (5/2) *
        uniformDraw (9/10) (12/10) (d 3)) :=
  rfl

lemma mkReading2_fill_clamped (days now k i : ℕ) (d : ℕ → ℚ) :
    ∃ t : ℤ, (mkReading2 days now k i d).fill = max 0 (min 100 t) :=
  ⟨_, rfl⟩

lemma mkReading2_fill_branches (days now k i : ℕ) (d : ℕ → ℚ) :
    ∃ t : ℤ, (mkReading2 days now k i d).fill =
      max 0 (min 100 (if (now - 24 * days + k) % 24 = 5 then pyRandint 0 10 (d 1) else t)) :=
  ⟨_, rfl⟩

lemma mkReading2_weight_clamped (days now k i : ℕ) (d : ℕ → ℚ) :
    ∃ q : ℚ, (mkReading2 days now k i d).weight = max 0 q :=
  ⟨_, rfl⟩

/-! Claim C4: bounds on every generated reading. -/

/-- C4 confirmed: every reading produced by either generator has an
integer fill level between 0 and 100 and a non-negative weight; the
fill level is clamped in both apps, the app.py weight is a product of
non-negative factors and the app2.py weight is clamped at 0. -/
theorem c4_reading_bounds :
    (∀ (now : ℕ) (tape : Tape), ∀ r ∈ generateData1 now tape,
      0 ≤ r.fill ∧ r.fill ≤ 100 ∧ 0 ≤ r.weight) ∧
    (∀ (days now : ℕ) (tape : Tape), ∀ r ∈ generateData2 days now tape,
      0 ≤ r.fill ∧ r.fill ≤ 100 ∧ 0 ≤ r.weight) := by
  constructor
  · intro now tape r hr
    obtain ⟨k, i, hk, hi, rfl⟩ := mem_genLoop.mp hr
    obtain ⟨t, ht⟩ := mkReading1_fill_clamped now k i (tape k i)
    have hfill : 0 ≤ (mkReading1 now k i (tape k i)).fill ∧
        (mkReading1 now k i (tape k i)).fill ≤ 100 := by
      rw [ht]; omega
    refine ⟨hfill.1, hfill.2, ?_⟩
    rw [mkReading1_weight_eq]
    apply pyRound2_nonneg
    apply mul_nonneg (mul_nonneg ?_ (by norm_num))
    · exact le_trans (by norm_num) (uniformDraw_le_left _ (by norm_num))
    · exact_mod_cast hfill.1
  · intro days now tape r hr
    obtain ⟨k, i, hk, hi, rfl⟩ := mem_genLoop.mp hr
    obtain ⟨t, ht⟩ := mkReading2_fill_clamped days now k i (tape k i)
    obtain ⟨q, hq⟩ := mkReading2_weight_clamped days now k i (tape k i)
    refine ⟨?_, ?_, ?_⟩
    · rw [ht]; omega
    · rw [ht]; omega
    · rw [hq]; exact le_max_left 0 q

/-- C4 witness: the bounds theorem applied to a concrete reading of
each generator. -/
theorem c4_reading_bounds_witness :
    (0 ≤ (mkReading1 173 5 3 (fun _ => 0)).fill ∧
      (mkReading1 173 5 3 (fun _ => 0)).fill ≤ 100 ∧
      0 ≤ (mkReading1 173 5 3 (fun _ => 0)).weight) ∧
    (0 ≤ (mkReading2 0 24 0 0 (fun _ => 0)).fill ∧
      (mkReading2 0 24 0 0 (fun _ => 0)).fill ≤ 100 ∧
      0 ≤ (mkReading2 0 24 0 0 (fun _ => 0)).weight) :=
  ⟨c4_reading_bounds.1 173 (fun _ _ _ => 0) _ (mem_genLoop.mpr ⟨5, 3, by decide, by decide, rfl⟩),
   c4_reading_bounds.2 0 24 (fun _ _ _ => 0) _ (mem_genLoop.mpr ⟨0, 0, by decide, by decide, rfl⟩)⟩

/-! Claim C7: snapshot shape. -/

/-- C7 confirmed: for either generator the snapshot at the maximum
timestamp has exactly one row per registered station, with station
indices 0..n-1 in registry order, and every row carries the final
timestamp now. -/
theorem c7_snapshot_shape :
    (∀ (now : ℕ) (tape : Tape), 168 ≤ now →
      (latestSnapshot (generateData1 now tape)).length = LOCATIONS.length ∧
      (latestSnapshot (generateData1 now tape)).map (fun r => r.station) =
        List.range LOCATIONS.length ∧
      ∀ r ∈ latestSnapshot (generateData1 now tape), r.timestamp = now) ∧
    (∀ (days now : ℕ) (tape : Tape), 24 * days ≤ now →
      (latestSnapshot (generateData2 days now tape)).length = tpsLocations.length ∧
      (latestSnapshot (generateData2 days now tape)).map (fun r => r.station) =
        List.range tpsLocations.length ∧
      ∀ r ∈ latestSnapshot (generateData2 days now tape), r.timestamp = now) := by
  constructor
  · intro now tape hnow
    have hs : latestSnapshot (generateData1 now tape) =
        (List.range LOCATIONS.length).map (fun i => mkReading1 now 168 i (tape 168 i)) :=
      latestSnapshot_genLoop (fun k i => mkReading1_timestamp now k i (tape k i)) hnow
        (by decide)
    rw [hs]
    refine ⟨by simp, ?_, ?_⟩
    · rw [List.map_map]
      exact List.map_id'' (fun i => rfl) _
    · intro r hr
      obtain ⟨i, hi, rfl⟩ := List.mem_map.mp hr
      rw [mkReading1_timestamp]
      omega
  · intro days now tape hnow
    have hs : latestSnapshot (generateData2 days now tape) =
        (List.range tpsLocations.length).map
          (fun i => mkReading2 days now (24 * days) i (tape (24 * days) i)) :=
      latestSnapshot_genLoop (fun k i => mkReading2_timestamp days now k i (tape k i)) hnow
        (by decide)
    rw [hs]
    refine ⟨by simp, ?_, ?_⟩
    · rw [List.map_map]
      exact List.map_id'' (fun i => rfl) _
    · intro r hr
      obtain ⟨i, hi, rfl⟩ := List.mem_map.mp hr
      rw [mkReading2_timestamp]
      omega

/-- C7 witness: the snapshot-shape theorem applied at concrete times
for both generators. -/
theorem c7_snapshot_shape_witness :
    ((latestSnapshot (generateData1 173 (fun _ _ _ => 0))).length = LOCATIONS.length ∧
      (latestSnapshot (generateData1 173 (fun _ _ _ => 0))).map (fun r => r.station) =
        List.range LOCATIONS.length ∧
      ∀ r ∈ latestSnapshot (generateData1 173 (fun _ _ _ => 0)), r.timestamp = 173) ∧
    ((latestSnapshot (generateData2 0 24 (fun _ _ _ => 0))).length = tpsLocations.length ∧
      (latestSnapshot (generateData2 0 24 (fun _ _ _ => 0))).map (fun r => r.station) =
        List.range tpsLocations.length ∧
      ∀ r ∈ latestSnapshot (generateData2 0 24 (fun _ _ _ => 0)), r.timestamp = 24) :=
  ⟨c7_snapshot_shape.1 173 (fun _ _ _ => 0) (by decide),
   c7_snapshot_shape.2 0 24 (fun _ _ _ => 0) (by decide)⟩

/-! Claim C6: reset hour behavior. -/

/-- C6 counterexample: in app.py, when the final timestamp of the
window itself falls on the collection hour (now with hour-of-day 5),
the final-snapshot banding overrides the reset: station 8 (multiplier
1.8) gets a fill level of at least 80, far above the just-collected
range. -/
theorem c6_reset_hour_counterexample :
    mkReading1 173 168 8 (fun _ => 0) ∈ generateData1 173 (fun _ _ _ => 0) ∧
    (mkReading1 173 168 8 (fun _ => 0)).timestamp % 24 = 5 ∧
    9 < (mkReading1 173 168 8 (fun _ => 0)).fill := by
  refine ⟨mem_genLoop.mpr ⟨168, 8, by decide, by decide, rfl⟩, by decide, ?_⟩
  obtain ⟨F, hF⟩ := mkReading1_fill_branches 173 168 8 (fun _ => 0)
  rw [if_pos (show (173 : ℕ) - 168 + 168 = 173 by decide)] at hF
  rw [if_pos (show (3:ℚ)/2 < (LOCATIONS.getD 8 default).mult by
        rw [show (LOCATIONS.getD 8 default).mult = 18/10 from rfl]; norm_num)] at hF
  rw [pyTrunc_intCast] at hF
  have hb := npRandint_mem 80 100 (0 : ℚ) (by norm_num)
  rw [hF]
  omega

/-- C6 amended: at the collection hour (hour-of-day 5) the generated
fill level lies in the low just-collected range -- 0..10 in app2.py
for every reading, and 0..9 in app.py for every reading except those
at the final timestamp, where the final-snapshot banding takes
precedence over the reset. -/
theorem c6_reset_hour_low :
    (∀ (days now : ℕ) (tape : Tape), ∀ r ∈ generateData2 days now tape,
      r.timestamp % 24 = 5 → 0 ≤ r.fill ∧ r.fill ≤ 10) ∧
    (∀ (now : ℕ) (tape : Tape), ∀ r ∈ generateData1 now tape,
      r.timestamp % 24 = 5 → r.timestamp ≠ now → 0 ≤ r.fill ∧ r.fill ≤ 9) := by
  constructor
  · intro days now tape r hr hh
    obtain ⟨k, i, hk, hi, rfl⟩ := mem_genLoop.mp hr
    rw [mkReading2_timestamp] at hh
    obtain ⟨t, ht⟩ := mkReading2_fill_branches days now k i (tape k i)
    rw [if_pos hh] at ht
    have hb := pyRandint_mem 0 10 (tape k i 1) (by norm_num)
    rw [ht]
    omega
  · intro now tape r hr hh hne
    obtain ⟨k, i, hk, hi, rfl⟩ := mem_genLoop.mp hr
    rw [mkReading1_timestamp] at hh hne
    obtain ⟨F, hF⟩ := mkReading1_fill_branches now k i (tape k i)
    rw [if_neg hne, if_pos hh, pyTrunc_intCast] at hF
    have hb := npRandint_mem 0 10 (tape k i 1) (by norm_num)
    rw [hF]
    omega

/-- C6 witness: the amended reset theorem applied to a concrete
app2.py reading at hour 5 and a concrete non-final app.py reading at
hour 5. -/
theorem c6_reset_hour_low_witness :
    (0 ≤ (mkReading2 0 29 0 0 (fun _ => 0)).fill ∧
      (mkReading2 0 29 0 0 (fun _ => 0)).fill ≤ 10) ∧
    (0 ≤ (mkReading1 173 0 0 (fun _ => 0)).fill ∧
      (mkReading1 173 0 0 (fun _ => 0)).fill ≤ 9) :=
  ⟨c6_reset_hour_low.1 0 29 (fun _ _ _ => 0) _
      (mem_genLoop.mpr ⟨0, 0, by decide, by decide, rfl⟩) (by decide),
   c6_reset_hour_low.2 173 (fun _ _ _ => 0) _
      (mem_genLoop.mpr ⟨0, 0, by decide, by decide, rfl⟩) (by decide) (by decide)⟩

/-! Claim C10: final-snapshot banding in app.py. -/

/-- C10 confirmed: every app.py snapshot reading is drawn from the
band selected by its station's multiplier -- 80..99 above multiplier
1.5 (hence above 75 and in the pickup list), 50..78 between 1.1
exclusive and 1.5 inclusive, 10..48 otherwise (hence below 50) --
the banding overriding both the accumulation formula and the hour-5
reset. -/
theorem c10_final_snapshot_bands (now : ℕ) (tape : Tape) (hnow : 168 ≤ now)
    (r : Reading) (hr : r ∈ latestSnapshot (generateData1 now tape)) :
    (3/2 < (LOCATIONS.getD r.station default).mult →
      80 ≤ r.fill ∧ r.fill < 100 ∧ 75 < r.fill ∧
      r ∈ pickupList1 (latestSnapshot (generateData1 now tape))) ∧
    (11/10 < (LOCATIONS.getD r.station default).mult ∧
        (LOCATIONS.getD r.station default).mult ≤ 3/2 →
      50 ≤ r.fill ∧ r.fill < 79) ∧
    ((LOCATIONS.getD r.station default).mult ≤ 11/10 →
      10 ≤ r.fill ∧ r.fill < 49 ∧ r.fill < 50) := by
  have hs : latestSnapshot (generateData1 now tape) =
      (List.range LOCATIONS.length).map (fun i => mkReading1 now 168 i (tape 168 i)) :=
    latestSnapshot_genLoop (fun k i => mkReading1_timestamp now k i (tape k i)) hnow
      (by decide)
  rw [hs] at hr
  obtain ⟨i, hi, rfl⟩ := List.mem_map.mp hr
  simp only [mkReading1_station]
  obtain ⟨F, hF⟩ := mkReading1_fill_branches now 168 i (tape 168 i)
  rw [if_pos (show now - 168 + 168 = now by omega)] at hF
  refine ⟨?_, ?_, ?_⟩
  · intro hm
    rw [if_pos hm, pyTrunc_intCast] at hF
    have hb := npRandint_mem 80 100 (tape 168 i 2) (by norm_num)
    refine ⟨by rw [hF]; omega, by rw [hF]; omega, by rw [hF]; omega, ?_⟩
    rw [hs]
    unfold pickupList1
    rw [List.mem_reverse, List.mem_mergeSort, List.mem_filter]
    refine ⟨List.mem_map.mpr ⟨i, hi, rfl⟩, ?_⟩
    rw [decide_eq_true_eq, hF]
    omega
  · rintro ⟨hm1, hm2⟩
    rw [if_neg (by linarith), if_pos hm1, pyTrunc_intCast] at hF
    have hb := npRandint_mem 50 79 (tape 168 i 2) (by norm_num)
    exact ⟨by rw [hF]; omega, by rw [hF]; omega⟩
  · intro hm
    rw [if_neg (by linarith), if_neg (by linarith), pyTrunc_intCast] at hF
    have hb := npRandint_mem 10 49 (tape 168 i 2) (by norm_num)
    exact ⟨by rw [hF]; omega, by rw [hF]; omega, by rw [hF]; omega⟩

/-- C10 witness: the banding theorem applied to station 8 (multiplier
1.8) at the final timestamp of a concrete run. -/
theorem c10_final_snapshot_bands_witness :
    80 ≤ (mkReading1 173 168 8 (fun _ => 0)).fill ∧
    (mkReading1 173 168 8 (fun _ => 0)).fill < 100 ∧
    75 < (mkReading1 173 168 8 (fun _ => 0)).fill ∧
    mkReading1 173 168 8 (fun _ => 0) ∈
      pickupList1 (latestSnapshot (generateData1 173 (fun _ _ _ => 0))) :=
  (c10_final_snapshot_bands 173 (fun _ _ _ => 0) (by decide)
      (mkReading1 173 168 8 (fun _ => 0))
      (by
        have hs : latestSnapshot (generateData1 173 (fun _ _ _ => 0)) =
            (List.range LOCATIONS.length).map
              (fun i => mkReading1 173 168 i ((fun _ _ _ => (0:ℚ)) 168 i)) :=
          latestSnapshot_genLoop
            (fun k i => mkReading1_timestamp 173 k i ((fun _ _ _ => (0:ℚ)) k i))
            (by decide) (by decide)
        rw [hs]
        exact List.mem_map.mpr ⟨8, by decide, rfl⟩)).1
    (by rw [mkReading1_station,
          show (LOCATIONS.getD 8 default).mult = 18/10 from rfl]
        norm_num)

/-! Comparator facts for the planner sorts. -/

lemma lexDescLe_trans : ∀ a b c : Reading, lexDescLe a b → lexDescLe b c → lexDescLe a c := by
  intro a b c hab hbc
  simp only [lexDescLe, decide_eq_true_eq] at hab hbc ⊢
  rcases hab with h | ⟨e1, w1⟩ <;> rcases hbc with h2 | ⟨e2, w2⟩
  · exact Or.inl (by omega)
  · exact Or.inl (by omega)
  · exact Or.inl (by omega)
  · exact Or.inr ⟨by omega, le_trans w2 w1⟩

lemma lexDescLe_total : ∀ a b : Reading, lexDescLe a b || lexDescLe b a := by
  intro a b
  simp only [lexDescLe, Bool.or_eq_true, decide_eq_true_eq]
  rcases lt_trichotomy a.fill b.fill with h | h | h
  · exact Or.inr (Or.inl h)
  · rcases le_total a.weight b.weight with hw | hw
    · exact Or.inr (Or.inr ⟨h.symm, hw⟩)
    · exact Or.inl (Or.inr ⟨h, hw⟩)
  · exact Or.inl (Or.inl h)

lemma fillLe_trans : ∀ a b c : Reading, fillLe a b → fillLe b c → fillLe a c := by
  intro a b c hab hbc
  simp only [fillLe, decide_eq_true_eq] at hab hbc ⊢
  omega

lemma fillLe_total : ∀ a b : Reading, fillLe a b || fillLe b a := by
  intro a b
  simp only [fillLe, Bool.or_eq_true, decide_eq_true_eq]
  omega

/-! Claim C2: route planner ordering. -/

/-- C2 counterexample: app.py sorts the pickup list on fill level
only, so a snapshot of three stations at equal fill 80 with weights
10, 20, 10 produces a pickup list whose tie order is not descending
by weight -- the claimed weight tiebreak does not hold for app.py. -/
theorem c2_route_order_counterexample :
    ¬ List.Pairwise (fun a b => b.fill < a.fill ∨ (a.fill = b.fill ∧ b.weight ≤ a.weight))
        (pickupList1 [⟨0, 0, 80, 10, false, false⟩, ⟨0, 1, 80, 20, false, false⟩,
          ⟨0, 2, 80, 10, false, false⟩]) := by
  have h2 : List.mergeSort [(⟨0, 0, 80, 10, false, false⟩ : Reading),
      ⟨0, 1, 80, 20, false, false⟩, ⟨0, 2, 80, 10, false, false⟩] fillLe =
      [⟨0, 0, 80, 10, false, false⟩, ⟨0, 1, 80, 20, false, false⟩,
        ⟨0, 2, 80, 10, false, false⟩] :=
    List.mergeSort_of_sorted (by decide)
  have hp : pickupList1 [⟨0, 0, 80, 10, false, false⟩, ⟨0, 1, 80, 20, false, false⟩,
      ⟨0, 2, 80, 10, false, false⟩] =
      [⟨0, 2, 80, 10, false, false⟩, ⟨0, 1, 80, 20, false, false⟩,
        ⟨0, 0, 80, 10, false, false⟩] := by
    unfold pickupList1
    rw [show List.filter (fun r => decide (75 < r.fill))
        [(⟨0, 0, 80, 10, false, false⟩ : Reading), ⟨0, 1, 80, 20, false, false⟩,
          ⟨0, 2, 80, 10, false, false⟩] =
        [⟨0, 0, 80, 10, false, false⟩, ⟨0, 1, 80, 20, false, false⟩,
          ⟨0, 2, 80, 10, false, false⟩] from rfl, h2]
    rfl
  rw [hp]
  intro hpw
  have := (List.pairwise_cons.mp hpw).1 ⟨0, 1, 80, 20, false, false⟩ (by decide)
  rcases this with h | ⟨_, h⟩
  · exact absurd h (by decide)
  · exact absurd h (by decide)

/-- C2 amended: app2.py's optimize_route is sorted descending
lexicographically by (fill, weight); app.py's pickup list is sorted
non-increasing by fill only, with equal-fill ties not ordered by
weight; in both apps no station appears twice when the snapshot has
no duplicate stations, and a non-empty coordinate route ends at the
disposal site. -/
theorem c2_route_order (snap : List Reading)
    (hnd : (snap.map (fun r => r.station)).Nodup) :
    List.Pairwise (fun a b => b.fill < a.fill ∨ (a.fill = b.fill ∧ b.weight ≤ a.weight))
      (routePlan2 snap) ∧
    List.Pairwise (fun a b => b.fill ≤ a.fill) (pickupList1 snap) ∧
    ((pickupList1 snap).map (fun r => r.station)).Nodup ∧
    ((routePlan2 snap).map (fun r => r.station)).Nodup ∧
    (routeCoords1 snap ≠ [] → (routeCoords1 snap).getLast? = some tpaCoord1) ∧
    (routeCoords2 snap ≠ [] → (routeCoords2 snap).getLast? = some tpaCoord2) := by
  have hfsub : ((snap.filter fun r => decide (75 < r.fill)).map (fun r => r.station)).Nodup :=
    hnd.sublist (List.Sublist.map _ (List.filter_sublist snap))
  have hperm1 : List.Perm (List.mergeSort (snap.filter fun r => decide (75 < r.fill)) fillLe)
      (snap.filter fun r => decide (75 < r.fill)) := List.mergeSort_perm _ _
  have hperm2 : List.Perm (routePlan2 snap) (snap.filter fun r => decide (75 < r.fill)) :=
    List.mergeSort_perm _ _
  refine ⟨?_, ?_, ?_, ?_, ?_, ?_⟩
  · have hs := List.sorted_mergeSort lexDescLe_trans lexDescLe_total
      (snap.filter fun r => decide (75 < r.fill))
    exact hs.imp (fun h => by simpa [lexDescLe] using h)
  · rw [pickupList1, List.pairwise_reverse]
    have hs := List.sorted_mergeSort fillLe_trans fillLe_total
      (snap.filter fun r => decide (75 < r.fill))
    exact hs.imp (fun h => by simpa [fillLe] using h)
  · rw [pickupList1, List.map_reverse]
    exact (List.nodup_reverse).mpr (((hperm1.map _).nodup_iff).mpr hfsub)
  · exact ((hperm2.map _).nodup_iff).mpr hfsub
  · intro hne
    rw [routeCoords1] at hne ⊢
    rcases hempty : (pickupList1 snap).isEmpty with _ | _
    · simp only [hempty, Bool.false_eq_true, if_false]
      exact List.getLast?_concat _
    · simp [hempty] at hne
  · intro hne
    rw [routeCoords2] at hne ⊢
    rcases hempty : (routePlan2 snap).isEmpty with _ | _
    · simp only [hempty, Bool.false_eq_true, if_false]
      exact List.getLast?_concat _
    · simp [hempty] at hne

/-- C2 witness: the route-order theorem applied to a concrete
two-station snapshot with both stations above the threshold. -/
theorem c2_route_order_witness :
    List.Pairwise (fun a b => b.fill < a.fill ∨ (a.fill = b.fill ∧ b.weight ≤ a.weight))
      (routePlan2 [⟨7, 0, 90, 5, false, false⟩, ⟨7, 1, 80, 7, false, false⟩]) ∧
    List.Pairwise (fun a b => b.fill ≤ a.fill)
      (pickupList1 [⟨7, 0, 90, 5, false, false⟩, ⟨7, 1, 80, 7, false, false⟩]) ∧
    ((pickupList1 [⟨7, 0, 90, 5, false, false⟩, ⟨7, 1, 80, 7, false, false⟩]).map
      (fun r => r.station)).Nodup ∧
    ((routePlan2 [⟨7, 0, 90, 5, false, false⟩, ⟨7, 1, 80, 7, false, false⟩]).map
      (fun r => r.station)).Nodup ∧
    (routeCoords1 [⟨7, 0, 90, 5, false, false⟩, ⟨7, 1, 80, 7, false, false⟩] ≠ [] →
      (routeCoords1 [⟨7, 0, 90, 5, false, false⟩, ⟨7, 1, 80, 7, false, false⟩]).getLast? =
        some tpaCoord1) ∧
    (routeCoords2 [⟨7, 0, 90, 5, false, false⟩, ⟨7, 1, 80, 7, false, false⟩] ≠ [] →
      (routeCoords2 [⟨7, 0, 90, 5, false, false⟩, ⟨7, 1, 80, 7, false, false⟩]).getLast? =
        some tpaCoord2) :=
  c2_route_order _ (by decide)

/-! Helper lemmas for the clustering claims. -/

lemma clusterMean_comp (snap : List Reading) (a : ℕ → Fin 3) (pi : Equiv.Perm (Fin 3))
    (c : Fin 3) : clusterMean snap (fun i => pi (a i)) (pi c) = clusterMean snap a c := by
  unfold clusterMean
  have hf : ((List.range snap.length).filter fun i => decide (pi (a i) = pi c)) =
      (List.range snap.length).filter fun i => decide (a i = c) :=
    List.filter_congr fun i _ => decide_eq_decide.mpr (Equiv.apply_eq_iff_eq pi)
  simp only [hf]

lemma clusterMean_symm (snap : List Reading) (a : ℕ → Fin 3) (pi : Equiv.Perm (Fin 3))
    (d : Fin 3) : clusterMean snap (fun i => pi (a i)) d = clusterMean snap a (pi.symm d) := by
  conv_lhs => rw [← Equiv.apply_symm_apply pi d]
  exact clusterMean_comp snap a pi (pi.symm d)

/-- With pairwise distinct cluster means the stable tie clause of the
descending sort never fires. -/
lemma rankDesc_eq (mu : Fin 3 → ℚ) (hinj : Function.Injective mu) (c : Fin 3) :
    rankDesc mu c = (Finset.univ.filter fun d => mu c < mu d).card := by
  unfold rankDesc
  congr 1
  apply Finset.filter_congr
  intro d _
  constructor
  · rintro (h | ⟨he, hlt⟩)
    · exact h
    · exact absurd (hinj he ▸ hlt) (lt_irrefl c)
  · exact Or.inl

/-- With pairwise distinct cluster means the stable tie clause of the
ascending sort never fires. -/
lemma rankAsc_eq (mu : Fin 3 → ℚ) (hinj : Function.Injective mu) (c : Fin 3) :
    rankAsc mu c = (Finset.univ.filter fun d => mu d < mu c).card := by
  unfold rankAsc
  congr 1
  apply Finset.filter_congr
  intro d _
  constructor
  · rintro (h | ⟨he, hlt⟩)
    · exact h
    · exact absurd (hinj he ▸ hlt) (lt_irrefl c)
  · exact Or.inl

lemma card_filter_perm (pi : Equiv.Perm (Fin 3)) (p : Fin 3 → Prop) [DecidablePred p] :
    (Finset.univ.filter fun d => p (pi.symm d)).card = (Finset.univ.filter p).card :=
  Finset.card_equiv pi.symm (fun i => by simp)

lemma rankDesc_perm (mu : Fin 3 → ℚ) (hinj : Function.Injective mu)
    (pi : Equiv.Perm (Fin 3)) (c : Fin 3) :
    rankDesc (fun d => mu (pi.symm d)) (pi c) = rankDesc mu c := by
  have hinj2 : Function.Injective fun d => mu (pi.symm d) :=
    fun x y h => pi.symm.injective (hinj h)
  rw [rankDesc_eq _ hinj2, rankDesc_eq _ hinj]
  simp only [Equiv.symm_apply_apply]
  exact card_filter_perm pi (fun d => mu c < mu d)

lemma rankAsc_perm (mu : Fin 3 → ℚ) (hinj : Function.Injective mu)
    (pi : Equiv.Perm (Fin 3)) (c : Fin 3) :
    rankAsc (fun d => mu (pi.symm d)) (pi c) = rankAsc mu c := by
  have hinj2 : Function.Injective fun d => mu (pi.symm d) :=
    fun x y h => pi.symm.injective (hinj h)
  rw [rankAsc_eq _ hinj2, rankAsc_eq _ hinj]
  simp only [Equiv.symm_apply_apply]
  exact card_filter_perm pi (fun d => mu d < mu c)

/-! Claim C3: clustering labels under cluster id permutation. -/

/-- C3 counterexample: when cluster mean fill levels tie, both apps
break the tie in the sorted mean series by raw cluster id, so the
claimed invariance fails: on a 4-row snapshot with every fill at 50
(all three cluster means equal), swapping cluster ids 0 and 2 changes
the app.py labels on every row of those clusters. -/
theorem c3_cluster_labels_tie_counterexample :
    3 ≤ ([⟨0, 0, 50, 10, false, false⟩, ⟨0, 1, 50, 10, false, false⟩,
        ⟨0, 2, 50, 10, false, false⟩, ⟨0, 3, 50, 10, false, false⟩] : List Reading).length ∧
    classify1 [⟨0, 0, 50, 10, false, false⟩, ⟨0, 1, 50, 10, false, false⟩,
        ⟨0, 2, 50, 10, false, false⟩, ⟨0, 3, 50, 10, false, false⟩]
      (fun i => Equiv.swap 0 2 (if i = 0 then 0 else if i = 1 then 1 else if i = 2 then 2 else 0)) ≠
    classify1 [⟨0, 0, 50, 10, false, false⟩, ⟨0, 1, 50, 10, false, false⟩,
        ⟨0, 2, 50, 10, false, false⟩, ⟨0, 3, 50, 10, false, false⟩]
      (fun i => if i = 0 then 0 else if i = 1 then 1 else if i = 2 then 2 else 0) := by
  refine ⟨by decide, ?_⟩
  have hmu1 : clusterMean [⟨0, 0, 50, 10, false, false⟩, ⟨0, 1, 50, 10, false, false⟩,
      ⟨0, 2, 50, 10, false, false⟩, ⟨0, 3, 50, 10, false, false⟩]
      (fun i => Equiv.swap 0 2 (if i = 0 then 0 else if i = 1 then 1 else if i = 2 then 2 else 0)) =
      fun _ => (50 : ℚ) := by
    funext c
    fin_cases c <;>
      (simp +decide [clusterMean, List.range_succ, Equiv.swap_apply_def]; try norm_num)
  have hmu2 : clusterMean [⟨0, 0, 50, 10, false, false⟩, ⟨0, 1, 50, 10, false, false⟩,
      ⟨0, 2, 50, 10, false, false⟩, ⟨0, 3, 50, 10, false, false⟩]
      (fun i => if i = 0 then 0 else if i = 1 then 1 else if i = 2 then 2 else 0) =
      fun _ => (50 : ℚ) := by
    funext c
    fin_cases c <;>
      (simp +decide [clusterMean, List.range_succ]; try norm_num)
  rw [classify1, classify1, if_pos (by decide), if_pos (by decide), hmu1, hmu2]
  decide

/-- C3 amended: when the snapshot has at least 3 rows, the cluster
assignment uses all three ids and the three cluster means are
pairwise distinct (so that rank by mean is well defined and the
tie-by-id fallback of the mean sort never fires), permuting the
internal cluster ids leaves the final priority labels of both apps
unchanged on every row: labels are then a function of the rank by
mean fill level only. -/
theorem c3_cluster_labels_perm_invariant (snap : List Reading) (a : ℕ → Fin 3)
    (pi : Equiv.Perm (Fin 3)) (_hlen : 3 ≤ snap.length)
    (_hsurj : Function.Surjective a)
    (hinj : Function.Injective (clusterMean snap a)) :
    classify1 snap (fun i => pi (a i)) = classify1 snap a ∧
    classify2 snap (fun i => pi (a i)) = classify2 snap a := by
  have hmu : clusterMean snap (fun i => pi (a i)) = fun d => clusterMean snap a (pi.symm d) :=
    funext fun d => clusterMean_symm snap a pi d
  have hr1 : ∀ i, rankDesc (clusterMean snap (fun j => pi (a j))) (pi (a i)) =
      rankDesc (clusterMean snap a) (a i) := fun i => by
    rw [hmu]; exact rankDesc_perm _ hinj pi (a i)
  have hr2 : ∀ i, rankAsc (clusterMean snap (fun j => pi (a j))) (pi (a i)) =
      rankAsc (clusterMean snap a) (a i) := fun i => by
    rw [hmu]; exact rankAsc_perm _ hinj pi (a i)
  constructor
  · unfold classify1
    by_cases h : 3 < snap.length
    · rw [if_pos h, if_pos h]
      exact List.map_congr_left fun i _ => by rw [hr1 i]
    · rw [if_neg h, if_neg h]
  · unfold classify2
    by_cases h : snap.length < 3
    · rw [if_pos h, if_pos h]
    · rw [if_neg h, if_neg h]
      congr 1
      exact List.map_congr_left fun i _ => by rw [hr2 i]

/-- C3 witness: the invariance theorem applied to a concrete 3-row
snapshot with singleton clusters of means 10, 50, 90 and the swap of
cluster ids 0 and 1. -/
theorem c3_cluster_labels_perm_invariant_witness :
    classify1 [⟨0, 0, 10, 25, false, false⟩, ⟨0, 1, 50, 125, false, false⟩,
        ⟨0, 2, 90, 225, false, false⟩]
      (fun i => Equiv.swap 0 1 (if i = 0 then 0 else if i = 1 then 1 else 2)) =
    classify1 [⟨0, 0, 10, 25, false, false⟩, ⟨0, 1, 50, 125, false, false⟩,
        ⟨0, 2, 90, 225, false, false⟩]
      (fun i => if i = 0 then 0 else if i = 1 then 1 else 2) ∧
    classify2 [⟨0, 0, 10, 25, false, false⟩, ⟨0, 1, 50, 125, false, false⟩,
        ⟨0, 2, 90, 225, false, false⟩]
      (fun i => Equiv.swap 0 1 (if i = 0 then 0 else if i = 1 then 1 else 2)) =
    classify2 [⟨0, 0, 10, 25, false, false⟩, ⟨0, 1, 50, 125, false, false⟩,
        ⟨0, 2, 90, 225, false, false⟩]
      (fun i => if i = 0 then 0 else if i = 1 then 1 else 2) :=
  c3_cluster_labels_perm_invariant _ _ (Equiv.swap 0 1) (by decide)
    (by
      intro c
      fin_cases c
      · exact ⟨0, rfl⟩
      · exact ⟨1, rfl⟩
      · exact ⟨2, rfl⟩)
    (by
      intro c d h
      fin_cases c <;> fin_cases d <;> revert h <;>
        simp +decide [clusterMean, List.range_succ])

/-! Claim C8: classifier arity threshold and fallback. -/

/-- C8 counterexample: app.py clusters only when the snapshot has
strictly more than 3 rows; with exactly 3 stations every row is
labeled Unknown, refuting the claim that at least 3 stations get
High, Medium or Low labels. -/
theorem c8_classifier_counterexample :
    ([⟨0, 0, 80, 10, false, false⟩, ⟨0, 1, 50, 5, false, false⟩,
        ⟨0, 2, 20, 2, false, false⟩] : List Reading).length = 3 ∧
    ¬ (∀ l ∈ classify1 [⟨0, 0, 80, 10, false, false⟩, ⟨0, 1, 50, 5, false, false⟩,
          ⟨0, 2, 20, 2, false, false⟩] (fun _ => (0 : Fin 3)),
        l = Label.high ∨ l = Label.medium ∨ l = Label.low) := by
  refine ⟨rfl, ?_⟩
  intro h
  have hc : classify1 [⟨0, 0, 80, 10, false, false⟩, ⟨0, 1, 50, 5, false, false⟩,
      ⟨0, 2, 20, 2, false, false⟩] (fun _ => (0 : Fin 3)) =
      [Label.unknown, Label.unknown, Label.unknown] := by
    unfold classify1
    rw [if_neg (by decide)]
    rfl
  have := h Label.unknown (by rw [hc]; exact List.mem_cons_self _ _)
  rcases this with h1 | h1 | h1 <;> exact absurd h1 (by decide)

/-- C8 amended: app.py assigns High, Medium or Low to every row only
when the snapshot has more than 3 rows, labeling every row Unknown at
3 or fewer; app2.py labels every row when the snapshot has at least 3
rows and returns the snapshot without any label column when it has
fewer, rather than failing the pipeline. -/
theorem c8_classifier_fallback :
    (∀ (snap : List Reading) (a : ℕ → Fin 3), 3 < snap.length →
      ∀ l ∈ classify1 snap a, l = Label.high ∨ l = Label.medium ∨ l = Label.low) ∧
    (∀ (snap : List Reading) (a : ℕ → Fin 3), snap.length ≤ 3 →
      ∀ l ∈ classify1 snap a, l = Label.unknown) ∧
    (∀ (snap : List Reading) (a : ℕ → Fin 3), snap.length < 3 →
      classify2 snap a = none) ∧
    (∀ (snap : List Reading) (a : ℕ → Fin 3), 3 ≤ snap.length →
      ∃ ls, classify2 snap a = some ls ∧ ls.length = snap.length ∧
        ∀ l ∈ ls, l = Label.high ∨ l = Label.medium ∨ l = Label.low) := by
  have hlab1 : ∀ n, labelOfRankDesc n = Label.high ∨ labelOfRankDesc n = Label.medium ∨
      labelOfRankDesc n = Label.low := by
    intro n
    match n with
    | 0 => exact Or.inl rfl
    | 1 => exact Or.inr (Or.inl rfl)
    | (m + 2) => exact Or.inr (Or.inr rfl)
  have hlab2 : ∀ n, labelOfRankAsc n = Label.high ∨ labelOfRankAsc n = Label.medium ∨
      labelOfRankAsc n = Label.low := by
    intro n
    match n with
    | 0 => exact Or.inr (Or.inr rfl)
    | 1 => exact Or.inr (Or.inl rfl)
    | (m + 2) => exact Or.inl rfl
  refine ⟨?_, ?_, ?_, ?_⟩
  · intro snap a h l hl
    rw [classify1, if_pos h] at hl
    obtain ⟨i, _, rfl⟩ := List.mem_map.mp hl
    exact hlab1 _
  · intro snap a h l hl
    rw [classify1, if_neg (by omega)] at hl
    obtain ⟨r, _, rfl⟩ := List.mem_map.mp hl
    rfl
  · intro snap a h
    rw [classify2, if_pos h]
  · intro snap a h
    rw [classify2, if_neg (by omega)]
    refine ⟨_, rfl, by simp, ?_⟩
    intro l hl
    obtain ⟨i, _, rfl⟩ := List.mem_map.mp hl
    exact hlab2 _

/-- C8 witness: the fallback theorem applied to concrete snapshots of
4, 3 and 2 rows. -/
theorem c8_classifier_fallback_witness :
    (labelOfRankDesc (rankDesc (clusterMean [⟨0, 0, 80, 10, false, false⟩,
        ⟨0, 1, 50, 5, false, false⟩, ⟨0, 2, 20, 2, false, false⟩,
        ⟨0, 3, 60, 6, false, false⟩] (fun _ => (0 : Fin 3))) ((fun _ => (0 : Fin 3)) 0)) =
          Label.high ∨
      labelOfRankDesc (rankDesc (clusterMean [⟨0, 0, 80, 10, false, false⟩,
        ⟨0, 1, 50, 5, false, false⟩, ⟨0, 2, 20, 2, false, false⟩,
        ⟨0, 3, 60, 6, false, false⟩] (fun _ => (0 : Fin 3))) ((fun _ => (0 : Fin 3)) 0)) =
          Label.medium ∨
      labelOfRankDesc (rankDesc (clusterMean [⟨0, 0, 80, 10, false, false⟩,
        ⟨0, 1, 50, 5, false, false⟩, ⟨0, 2, 20, 2, false, false⟩,
        ⟨0, 3, 60, 6, false, false⟩] (fun _ => (0 : Fin 3))) ((fun _ => (0 : Fin 3)) 0)) =
          Label.low) ∧
    Label.unknown = Label.unknown ∧
    classify2 [⟨0, 0, 80, 10, false, false⟩, ⟨0, 1, 50, 5, false, false⟩]
      (fun _ => (0 : Fin 3)) = none ∧
    (∃ ls, classify2 [⟨0, 0, 80, 10, false, false⟩, ⟨0, 1, 50, 5, false, false⟩,
        ⟨0, 2, 20, 2, false, false⟩] (fun _ => (0 : Fin 3)) = some ls ∧
      ls.length = ([⟨0, 0, 80, 10, false, false⟩, ⟨0, 1, 50, 5, false, false⟩,
        ⟨0, 2, 20, 2, false, false⟩] : List Reading).length ∧
      ∀ l ∈ ls, l = Label.high ∨ l = Label.medium ∨ l = Label.low) :=
  ⟨c8_classifier_fallback.1 [⟨0, 0, 80, 10, false, false⟩, ⟨0, 1, 50, 5, false, false⟩,
      ⟨0, 2, 20, 2, false, false⟩, ⟨0, 3, 60, 6, false, false⟩] (fun _ => (0 : Fin 3))
      (by decide) _
      (by rw [classify1, if_pos (by decide)]
          exact List.mem_map.mpr ⟨0, by decide, rfl⟩),
   c8_classifier_fallback.2.1 [⟨0, 0, 80, 10, false, false⟩, ⟨0, 1, 50, 5, false, false⟩,
      ⟨0, 2, 20, 2, false, false⟩] (fun _ => (0 : Fin 3)) (by decide) Label.unknown
      (by rw [classify1, if_neg (by decide)]
          exact List.mem_map.mpr ⟨⟨0, 0, 80, 10, false, false⟩, List.mem_cons_self _ _, rfl⟩),
   c8_classifier_fallback.2.2.1 _ (fun _ => (0 : Fin 3)) (by decide),
   c8_classifier_fallback.2.2.2 _ (fun _ => (0 : Fin 3)) (by decide)⟩

end SmartWaste
